import Mathlib

/-!
Verification development for the resolution/caching core of the `cubes`
analytics workspace (`src/cubes/workspace.py`).

The `Workspace` operations (`cube`, `list_cubes`, `cube_names`, `get_store`,
`register_store`, `_register_store_dict`, `import_model`, `browser`,
`flush_lookup_cache`, `_browser_options`) are translated directly from the
source.  External collaborators that are part of this repository but not
under `src/` (the `Namespace` tree, `ModelProvider`, `Store` extensions,
localization) are modelled from the spec; each such definition carries a
doc comment saying so.  Python dictionaries are modelled as association
lists with insert-replaces-existing semantics; Python object identity is
modelled by a fresh-id counter threaded through the workspace state;
Python exceptions are modelled with `Except`.
-/

namespace Cubes

/-- Error taxonomy (spec section 7 plus the built-in Python exceptions the
source raises directly). -/
inductive Err where
  | configurationError (msg : String)
  | notAuthorized
  | noSuchCube
  | noSuchNamespace
  | typeError
  | argumentError
  | assertionError
  | attributeError
  | keyError
deriving DecidableEq

deriving instance DecidableEq for Except

/-- A Python dict with string keys and string values (store/browser
configuration mappings). -/
abbrev Config := List (String × String)

/-- A user identity (Python `Any`, `None` by default). -/
abbrev Identity := Option String

/-- A translation source: object name to translated label, for domain
"cubes". -/
abbrev Translation := List (String × String)

/-- Python dict lookup on an association list. -/
def lookupA {κ α : Type} [DecidableEq κ] : List (κ × α) → κ → Option α
  | [], _ => none
  | (k, v) :: t, k2 => if k = k2 then some v else lookupA t k2

/-- Python dict assignment: replaces an existing binding, else appends. -/
def insertA {κ α : Type} [DecidableEq κ] : List (κ × α) → κ → α → List (κ × α)
  | [], k2, v2 => [(k2, v2)]
  | (k, v) :: t, k2, v2 => if k = k2 then (k2, v2) :: t else (k, v) :: insertA t k2 v2

/-- Python dict `pop`: removes the binding for a key if present. -/
def eraseA {κ α : Type} [DecidableEq κ] : List (κ × α) → κ → List (κ × α)
  | [], _ => []
  | (k, v) :: t, k2 => if k = k2 then t else (k, v) :: eraseA t k2

/-- Python `dict.update`: every binding of `upd` overwrites `base`. -/
def updateA (base upd : Config) : Config :=
  upd.foldl (fun acc kv => insertA acc kv.1 kv.2) base

/-- Python truthiness of an optional string: `None` and `""` are falsy. -/
def truthy : Option String → Bool
  | none => false
  | some s => s != ""

/-- Declaration of one cube inside a model provider's metadata. -/
structure CubeDecl where
  basename : String
  label : String
  browser_options : Config
  browserName : Option String
deriving DecidableEq

/-- The value of a Cube's `store` attribute.  The source's `browser()`
asserts it is a string or `None`; `liveHandle` models the forbidden case of
a live store object stored in the field. -/
inductive StoreField where
  | named (s : String)
  | absent
  | liveHandle (id : Nat)
deriving DecidableEq

/-- A resolved Cube object.  `objId` models Python object identity: each
materialization allocates a fresh one. -/
structure Cube where
  objId : Nat
  name : String
  basename : String
  nsName : Option String
  store : StoreField
  locale : Option String
  label : String
  browser_options : Config
  browserName : Option String
deriving DecidableEq

/-- Modelled from the spec (section 6, ModelProvider): a provider holds
cube declarations, remembers the NAME of the store it was bound to (spec
section 4.4: the cube is stamped with "its store name (taken from the
provider, not a live store)"), and declares whether it requires a store. -/
structure Provider where
  cubes : List CubeDecl
  store : Option String
  requires_store : Bool
deriving DecidableEq

/-- Modelled from the spec (section 4.1): one namespace node holds an
ordered provider list and a locale-to-translation mapping. -/
structure NS where
  providers : List Provider
  translations : List (String × Translation)
deriving DecidableEq

/-- Modelled from the spec (section 4.1): the namespace tree, with the
root (default) namespace and named child namespaces. -/
structure NSTree where
  root : NS
  children : List (String × NS)
deriving DecidableEq

/-- Key identifying a namespace in the tree: `none` is the root/default
namespace, `some n` the child named `n`. -/
abbrev NSKey := Option String

/-- Cube cache key: (reference, identity, locale), as in `_CubeKey`. -/
abbrev CubeKey := String × Identity × Option String

/-- Modelled from the spec (section 6, Store): what a registered store
extension (type) exposes to the workspace. -/
structure StoreExtInfo where
  related_model_provider : Option String
  default_browser_name : Option String
deriving DecidableEq

/-- Modelled from the spec (section 6, ModelProvider): what a provider
extension (type) exposes. -/
structure ProviderExtInfo where
  requires_store : Bool
deriving DecidableEq

/-- A live Store instance.  `sid` models Python object identity;
`extension_name` is the extension (type) name the store was created from. -/
structure Store where
  sid : Nat
  name : String
  extension_name : String
  options : Config
  default_browser_name : Option String
deriving DecidableEq

/-- Inline model metadata dictionary (the keys `import_model` reads). -/
structure Metadata where
  provider : Option String
  store : Option String
  cubes : List CubeDecl
deriving DecidableEq

/-- A cube descriptor as returned by `list_cubes`. -/
structure CubeDesc where
  name : String
  label : String
deriving DecidableEq

/-- A constructed aggregation browser instance (the fields the source
passes to the browser class constructor). -/
structure Browser where
  cube : Cube
  store : Store
  locale : Option String
  naming : Option Config
  settings : Config
  browserName : String
deriving DecidableEq

/-- An authorizer: identity and a list of references to the authorized
subset (spec section 6). -/
abbrev AuthFn := Identity → List String → List String

/-- The workspace state: every mutable attribute of the Python
`Workspace`, plus the extension registries (spec section 9: capability
registries populated at startup) and an abstract path-to-metadata mapping
standing for the excluded model-file reader. -/
structure Workspace where
  store_infos : List (String × (String × Config))
  stores : List (String × Store)
  nstree : NSTree
  _cubes : List (CubeKey × Cube)
  authorizer : Option AuthFn
  browser_options : Config
  namings : List (String × Config)
  storeExtensions : List (String × StoreExtInfo)
  providerExtensions : List (String × ProviderExtInfo)
  browserExtensions : List String
  modelFiles : List (String × Metadata)
  counter : Nat

/-- Does provider `p` claim a cube with the given basename? -/
def Provider.claims (p : Provider) (base : String) : Bool :=
  p.cubes.any (fun d => d.basename == base)

/-- First provider in registration order claiming `base` (spec section
4.1: first match wins, ties broken by registration order). -/
def findFirstProvider (ps : List Provider) (base : String) : Option Provider :=
  ps.find? (fun p => p.claims base)

/-- Split a character list at dots (helper for reference parsing). -/
def splitDotsAux : List Char → List Char → List String
  | [], acc => [String.mk acc.reverse]
  | c :: rest, acc =>
    if c = '.' then String.mk acc.reverse :: splitDotsAux rest []
    else splitDotsAux rest (c :: acc)

/-- Split a reference at dots into namespace path segments plus basename. -/
def splitDots (s : String) : List String :=
  splitDotsAux s.data []

/-- Modelled from the spec (section 4.1, `Namespace.find_cube`): parse
`ref` as an optionally namespace-qualified name; search the named
namespace first, then ascend to the root; return the owning namespace,
the first claiming provider and the basename, or fail with "no such
cube". -/
def NSTree.find_cube (t : NSTree) (ref : String) : Except Err (NSKey × Provider × String) :=
  let parts := splitDots ref
  let base := parts.getLastD ref
  let nsparts := parts.dropLast
  if nsparts.isEmpty then
    match findFirstProvider t.root.providers base with
    | some p => .ok (none, p, base)
    | none => .error .noSuchCube
  else
    let nspath := String.intercalate "." nsparts
    match lookupA t.children nspath with
    | none => .error .noSuchCube
    | some ns =>
      match findFirstProvider ns.providers base with
      | some p => .ok (some nspath, p, base)
      | none =>
        match findFirstProvider t.root.providers base with
        | some p => .ok (none, p, base)
        | none => .error .noSuchCube

/-- Modelled from the spec (section 4.1, `Namespace.translation_lookup`):
translation sources for a locale, searched from the namespace outward to
the root, nearest first; empty when the locale is absent or nothing is
registered. -/
def NSTree.translation_lookup (t : NSTree) (k : NSKey) (locale : Option String) :
    List Translation :=
  match locale with
  | none => []
  | some loc =>
    let rootT := match lookupA t.root.translations loc with
      | some tr => [tr]
      | none => []
    match k with
    | none => rootT
    | some n =>
      match lookupA t.children n with
      | none => rootT
      | some ns =>
        (match lookupA ns.translations loc with
         | some tr => [tr]
         | none => []) ++ rootT

/-- Modelled from the spec (section 4.1, `Namespace.namespace` with
`create=True`): the tree after making sure the child namespace exists. -/
def NSTree.ensureChild (t : NSTree) (n : String) : NSTree :=
  match lookupA t.children n with
  | some _ => t
  | none => { t with children := insertA t.children n ⟨[], []⟩ }

/-- Modelled from the spec (section 4.1, `Namespace.namespace`): descend
to the named child namespace, creating it when `create` is set, else
failing with "no such namespace". -/
def NSTree.getNamespace (t : NSTree) (n : String) (create : Bool) :
    Except Err (NSTree × NSKey) :=
  match lookupA t.children n with
  | some _ => .ok (t, some n)
  | none =>
    if create then .ok (t.ensureChild n, some n)
    else .error .noSuchNamespace

/-- Modelled from the spec (section 4.1, `Namespace.add_provider`):
append a provider to the provider list of the namespace at `k`. -/
def NSTree.addProviderAt (t : NSTree) (k : NSKey) (p : Provider) : NSTree :=
  match k with
  | none => { t with root := { t.root with providers := t.root.providers ++ [p] } }
  | some n =>
    match lookupA t.children n with
    | some ns =>
      { t with children := insertA t.children n { ns with providers := ns.providers ++ [p] } }
    | none => t

/-- Modelled from the spec (section 6, ModelProvider): `provider.cube`
materializes a fresh Cube object from the declaration with the requested
basename, or fails with "no such cube". -/
def Provider.cube (p : Provider) (base : String) (locale : Option String) (fresh : Nat) :
    Except Err Cube :=
  match p.cubes.find? (fun d => d.basename == base) with
  | none => .error .noSuchCube
  | some d =>
    .ok { objId := fresh
          name := d.basename
          basename := d.basename
          nsName := none
          store := .absent
          locale := locale
          label := d.label
          browser_options := d.browser_options
          browserName := d.browserName }

/-- The cube `store` attribute written by `Workspace.cube` (line 637):
the provider's store name, or absent. -/
def storeFieldOf : Option String → StoreField
  | some s => .named s
  | none => .absent

/-- Modelled from the spec (section 6, LocalizationContext): the
translation for one object of the "cubes" domain. -/
def objectLocalization (tr : Translation) (_domain : String) (objname : String) :
    Option String :=
  lookupA tr objname

/-- Modelled from the spec (section 4.4 step 5): `cube.localized(trans)`
produces a copy with translated label fields; everything else is kept. -/
def Cube.localized (c : Cube) (tr : Option String) : Cube :=
  match tr with
  | some l => { c with label := l }
  | none => c

/-- Modelled from the spec (section 4.1, `Namespace.list_cubes`): cube
descriptors of this namespace's providers, in registration order, no
deduplication. -/
def NS.listCubeDescs (ns : NS) : List CubeDesc :=
  ns.providers.foldr (fun p acc => p.cubes.map (fun d => ⟨d.basename, d.label⟩) ++ acc) []

/-- Modelled from the spec (section 4.1, `Namespace.list_cubes` with
`recursive=True`): root descriptors, then each child's descriptors with
the child namespace name prefixed to the cube name. -/
def NSTree.list_cubes (t : NSTree) : List CubeDesc :=
  t.root.listCubeDescs ++
    t.children.foldr
      (fun c acc =>
        (c.2.listCubeDescs.map (fun d => { d with name := c.1 ++ "." ++ d.name })) ++ acc)
      []

/-- The argument passed as the `ref` parameter of `Workspace.cube`
(Python is dynamically typed: callers can pass a non-string). -/
inductive RefArg where
  | str (s : String)
  | nonStr
deriving DecidableEq

/-- `Workspace.flush_lookup_cache` (lines 371-374): clears the cube
lookup cache. -/
def Workspace.flush_lookup_cache (ws : Workspace) : Workspace :=
  { ws with _cubes := [] }

/-- The authorization gate of `Workspace.cube` (lines 620-623): the
source raises NotAuthorized when the list returned by the authorizer is
empty (`if not authorized`). -/
def Workspace.authDenied (ws : Workspace) (identity : Identity) (r : String) : Bool :=
  match ws.authorizer with
  | some auth => (auth identity [r]).isEmpty
  | none => false

/-- Cache-miss tail of `Workspace.cube` (lines 631-654): namespace
resolution, materialization, stamping, localization and the cache
write. -/
def Workspace.cubeMaterialize (ws : Workspace) (r : String) (identity : Identity)
    (locale : Option String) : Workspace × Except Err Cube :=
  match ws.nstree.find_cube r with
  | .error e => (ws, .error e)
  | .ok (nskey, prov, base) =>
    match prov.cube base locale ws.counter with
    | .error e => (ws, .error e)
    | .ok c0 =>
      let c1 := { c0 with
        nsName := nskey
        store := storeFieldOf prov.store
        basename := base
        name := r }
      let c2 :=
        match ws.nstree.translation_lookup nskey locale with
        | [] => c1
        | tr :: _ => c1.localized (objectLocalization tr "cubes" c1.name)
      ({ ws with
         _cubes := insertA ws._cubes (r, identity, locale) c2
         counter := ws.counter + 1 }, .ok c2)

/-- `Workspace.cube` (lines 613-654): type check, authorization gate,
cache lookup, then the materialization tail. -/
def Workspace.cube (ws : Workspace) (ref : RefArg) (identity : Identity)
    (locale : Option String) : Workspace × Except Err Cube :=
  match ref with
  | .nonStr => (ws, .error .typeError)
  | .str r =>
    if ws.authDenied identity r then
      (ws, .error .notAuthorized)
    else
      match lookupA ws._cubes (r, identity, locale) with
      | some c => (ws, .ok c)
      | none => ws.cubeMaterialize r identity locale

/-- Python dict comprehension `{cube["name"]: cube for cube in all_cubes}`:
the LAST descriptor with a given name wins. -/
def byNameLookup (l : List CubeDesc) (n : String) : Option CubeDesc :=
  l.reverse.find? (fun d => d.name == n)

/-- `Workspace.list_cubes` (lines 591-611): recursive namespace listing,
then the authorizer filter in the authorizer's order. -/
def Workspace.list_cubes (ws : Workspace) (identity : Identity) :
    Except Err (List CubeDesc) :=
  let all_cubes := ws.nstree.list_cubes
  match ws.authorizer with
  | none => .ok all_cubes
  | some auth =>
    let names := all_cubes.map (fun c => c.name)
    let authorized := auth identity names
    match authorized.mapM (fun n => byNameLookup all_cubes n) with
    | some res => .ok res
    | none => .error .keyError

/-- `Workspace.cube_names` (lines 585-587).  Note the source calls
`self.list_cubes()` with the default identity (`None`), not the identity
it was given. -/
def Workspace.cube_names (ws : Workspace) (identity : Identity) :
    Except Err (List String) :=
  (ws.list_cubes none).map (fun l => l.map (fun c => c.name))

/-- `Workspace.get_store` (lines 767-788): return the cached live store,
else construct it from its registered (type, options) info, cache it and
return it; unknown names fail with ConfigurationError. -/
def Workspace.get_store (ws : Workspace) (name? : Option String) :
    Workspace × Except Err Store :=
  let name := match name? with
    | none => "default"
    | some s => if s = "" then "default" else s
  match lookupA ws.stores name with
  | some st => (ws, .ok st)
  | none =>
    match lookupA ws.store_infos name with
    | none => (ws, .error (.configurationError ("Unknown store " ++ name)))
    | some (type_, options) =>
      match lookupA ws.storeExtensions type_ with
      | none => (ws, .error (.configurationError ("unknown store extension " ++ type_)))
      | some extInfo =>
        let st : Store :=
          { sid := ws.counter
            name := name
            extension_name := type_
            options := options
            default_browser_name := extInfo.default_browser_name }
        ({ ws with
           stores := insertA ws.stores name st
           counter := ws.counter + 1 }, .ok st)

/-- The `model` argument of `import_model`: a metadata dictionary, a file
path, `None`, or something else entirely.  Reading and parsing model
files is an excluded collaborator (spec section 1); the workspace's
`modelFiles` mapping stands for the file contents. -/
inductive ModelArg where
  | dict (m : Metadata)
  | path (p : String)
  | noneArg
  | badInput
deriving DecidableEq

/-- The `provider` argument of `import_model`: a provider extension name,
an already-constructed provider instance, or `None`. -/
inductive ProviderArg where
  | name (s : String)
  | obj (p : Provider)
  | noneArg
deriving DecidableEq

/-- Modelled from the spec (section 6):
`ModelProvider.concrete_extension(name)(model)` constructs a provider
from metadata, initially unbound. -/
def mkProvider (info : ProviderExtInfo) (m : Metadata) : Provider :=
  { cubes := m.cubes, store := none, requires_store := info.requires_store }

/-- `Workspace.import_model` (lines 470-577): normalize the model
metadata, resolve the provider, bind it to a store when needed, pick the
target namespace (explicit argument wins, with "default" meaning root;
else the root when the store name is "default"; else a namespace named
after the store, created on demand) and register the provider there. -/
def Workspace.import_model (ws : Workspace) (model : ModelArg) (provider : ProviderArg)
    (store : Option String) (_translations : Option Translation)
    (nsArg : Option String) : Workspace × Except Err Unit :=
  let mRes : Except Err Metadata :=
    match model with
    | .dict m => .ok m
    | .path p =>
      match lookupA ws.modelFiles p with
      | some m => .ok m
      | none => .error (.configurationError ("Unable to read model " ++ p))
    | .noneArg => .ok ⟨none, none, []⟩
    | .badInput => .error (.configurationError "Unknown model (should be a filename or a dictionary)")
  match mRes with
  | .error e => (ws, .error e)
  | .ok m =>
    let provRes : Except Err Provider :=
      match provider with
      | .name s =>
        match lookupA ws.providerExtensions s with
        | some info => .ok (mkProvider info m)
        | none => .error (.configurationError ("unknown provider " ++ s))
      | .obj p => .ok p
      | .noneArg =>
        let pname := m.provider.getD "static"
        match lookupA ws.providerExtensions pname with
        | some info => .ok (mkProvider info m)
        | none => .error (.configurationError ("unknown provider " ++ pname))
    match provRes with
    | .error e => (ws, .error e)
    | .ok prov =>
      let store1 : Option String := if truthy store then store else m.store
      let bindStep : Workspace × Except Err Provider :=
        if truthy store1 || prov.requires_store then
          match ws.get_store store1 with
          | (ws', .ok st) => (ws', .ok { prov with store := some st.name })
          | (ws', .error e) => (ws', .error e)
        else (ws, .ok prov)
      match bindStep with
      | (ws1, .error e) => (ws1, .error e)
      | (ws1, .ok prov1) =>
        let nsRes : Except Err (NSTree × NSKey) :=
          if truthy nsArg then
            match nsArg with
            | some s =>
              if s = "default" then .ok (ws1.nstree, none)
              else ws1.nstree.getNamespace s true
            | none => .ok (ws1.nstree, none)
          else if store1 = some "default" then .ok (ws1.nstree, none)
          else
            match store1 with
            | some s => ws1.nstree.getNamespace s true
            | none => .error .attributeError
        match nsRes with
        | .error e => (ws1, .error e)
        | .ok (t1, key) =>
          ({ ws1 with nstree := t1.addProviderAt key prov1 }, .ok ())

/-- The config recorded in `store_infos` after the `config.pop("model")`
of `register_store` line 433 (the recorded dict is the same object, so
the pop is visible in `store_infos`). -/
def cfgAfterModelPop (include_model : Bool) (config : Config) : Config :=
  if include_model && (lookupA config "model").isSome then eraseA config "model"
  else config

/-- `Workspace.register_store` (lines 416-455): duplicate-name check,
record the (type, config) pair, pop the model key, resolve the store
extension (which can fail AFTER the pair was recorded), pop provider and
namespace hints, and trigger a model import when a model or provider is
present. -/
def Workspace.register_store (ws : Workspace) (name type_ : String)
    (include_model : Bool) (config : Config) : Workspace × Except Err Unit :=
  if (lookupA ws.store_infos name).isSome then
    (ws, .error (.configurationError ("Store " ++ name ++ " already registered")))
  else
    let model : Option String :=
      if include_model then lookupA config "model" else none
    let config1 := cfgAfterModelPop include_model config
    let ws1 := { ws with store_infos := insertA ws.store_infos name (type_, config1) }
    match lookupA ws.storeExtensions type_ with
    | none => (ws1, .error (.configurationError ("unknown store extension " ++ type_)))
    | some extInfo =>
      let providerHint : Option String :=
        match lookupA config1 "model_provider" with
        | some p => some p
        | none => extInfo.related_model_provider
      let config2 := eraseA config1 "model_provider"
      let nsname := lookupA config2 "namespace"
      let config3 := eraseA config2 "namespace"
      let ws2 := { ws1 with store_infos := insertA ws1.store_infos name (type_, config3) }
      match model with
      | some mpath =>
        let impArg : ProviderArg :=
          match providerHint with
          | some p => .name p
          | none => .noneArg
        ws2.import_model (.path mpath) impArg (some name) none nsname
      | none =>
        match providerHint with
        | some p => ws2.import_model (.dict ⟨none, none, []⟩) (.name p) (some name) none nsname
        | none => (ws2, .ok ())

/-- `Workspace._register_store_dict` (lines 392-407): extract the store
type from the `type` key, falling back to the deprecated `backend` key,
failing with ConfigurationError when neither is present. -/
def Workspace._register_store_dict (ws : Workspace) (name : String) (info : Config) :
    Workspace × Except Err Unit :=
  match lookupA info "type" with
  | some type_ => ws.register_store name type_ true (eraseA info "type")
  | none =>
    match lookupA info "backend" with
    | some type_ => ws.register_store name type_ true (eraseA info "backend")
    | none => (ws, .error (.configurationError ("Store " ++ name ++ " has no type specified")))

/-- `Workspace._browser_options` (lines 673-682): workspace browser
options overridden by the cube's own browser options. -/
def Workspace._browser_options (ws : Workspace) (c : Cube) : Config :=
  updateA ws.browser_options c.browser_options

/-- The argument passed as the `cube` parameter of `Workspace.browser`:
a reference string or an already-resolved Cube. -/
inductive CubeArg where
  | ref (s : String)
  | obj (c : Cube)

/-- `Workspace.browser` (lines 684-758): resolve a string reference via
`cube` (with identity but WITHOUT the requested locale), assert the cube's
store field is a name or absent, fall back to the cube's locale when the
requested one is falsy, open the store, layer the options, choose and
construct the browser. -/
def Workspace.browser (ws : Workspace) (cubeArg : CubeArg) (locale : Option String)
    (identity : Identity) : Workspace × Except Err Browser :=
  let step0 : Workspace × Except Err Cube :=
    match cubeArg with
    | .ref s => ws.cube (.str s) identity none
    | .obj c => (ws, .ok c)
  match step0 with
  | (ws0, .error e) => (ws0, .error e)
  | (ws0, .ok c) =>
    match c.store with
    | .liveHandle _ => (ws0, .error .assertionError)
    | _ =>
      let locale1 := if truthy locale then locale else c.locale
      let store_name := match c.store with
        | .named s => if s = "" then "default" else s
        | _ => "default"
      match ws0.get_store (some store_name) with
      | (ws1, .error e) => (ws1, .error e)
      | (ws1, .ok store) =>
        match lookupA ws1.store_infos store_name with
        | none => (ws1, .error .keyError)
        | some (_type0, store_info) =>
          let store_type := store.extension_name
          let cube_options := ws1._browser_options c
          let options := updateA store_info cube_options
          let bn0 := c.browserName
          let bn1 := if truthy bn0 then bn0 else store.default_browser_name
          let bn2 := if truthy bn1 then bn1 else some store_type
          if !(truthy bn2) then
            (ws1, .error (.configurationError "No store specified for cube"))
          else
            let browser_name := bn2.getD ""
            if !(ws1.browserExtensions.contains browser_name) then
              (ws1, .error (.configurationError ("unknown browser " ++ browser_name)))
            else
              let options1 := eraseA options "url"
              let naming_name := (lookupA options1 "naming").getD "default"
              let options2 := eraseA options1 "naming"
              let naming : Option Config := lookupA ws1.namings naming_name
              let b : Browser :=
                { cube := c
                  store := store
                  locale := locale1
                  naming := naming
                  settings := options2
                  browserName := browser_name }
              (ws1, .ok b)

/-- Cache well-formedness: every cached cube was allocated before the
current value of the fresh-id counter.  Holds for any workspace whose
cache was populated by `cube` alone. -/
def Workspace.WF (ws : Workspace) : Prop :=
  ∀ e ∈ ws._cubes, e.2.objId < ws.counter

/-- A cube carries the stamps `Workspace.cube` writes for reference `r`
against tree `t` (lines 633-641): the owning namespace, the provider's
store name, the provider-local basename and the full reference as its
name. -/
def CubeStamped (t : NSTree) (r : String) (c : Cube) : Prop :=
  ∃ k p b, t.find_cube r = .ok (k, p, b) ∧
    c.name = r ∧ c.basename = b ∧ c.nsName = k ∧ c.store = storeFieldOf p.store

/-- Every cache entry is stamped for its own key. -/
def Workspace.CacheStamped (ws : Workspace) : Prop :=
  ∀ e ∈ ws._cubes, CubeStamped ws.nstree e.1.1 e.2

/-- A provider declaring a single cube named "orders". -/
def provOrders : Provider :=
  { cubes := [⟨"orders", "Orders", [], none⟩], store := some "default", requires_store := false }

/-- Minimal workspace: one root provider declaring "orders", no
authorizer, empty registries and caches. -/
def wsPlain : Workspace :=
  { store_infos := []
    stores := []
    nstree := { root := { providers := [provOrders], translations := [] }, children := [] }
    _cubes := []
    authorizer := none
    browser_options := []
    namings := []
    storeExtensions := []
    providerExtensions := []
    browserExtensions := []
    modelFiles := []
    counter := 0 }

/-- An authorizer approving only the reference "orders". -/
def authOrdersOnly : AuthFn := fun _ refs => refs.filter (fun r => r == "orders")

/-- `wsPlain` with the "orders"-only authorizer installed. -/
def wsAuth : Workspace := { wsPlain with authorizer := some authOrdersOnly }

/-- An authorizer approving everything for identity "alice" and nothing
for anyone else (in particular nothing for `None`). -/
def authAliceOnly : AuthFn := fun i names => if i = some "alice" then names else []

/-- `wsPlain` with the alice-only authorizer installed. -/
def wsAlice : Workspace := { wsPlain with authorizer := some authAliceOnly }

/-- `wsPlain` with a registered default store of a known extension. -/
def wsStores : Workspace :=
  { wsPlain with
    store_infos := [("default", ("sql", [("url", "sqlite:x")]))]
    storeExtensions := [("sql", ⟨none, none⟩)] }

/-- Workspace for import tests: a registered store "mystore" of a known
extension. -/
def wsImp : Workspace :=
  { wsPlain with
    store_infos := [("mystore", ("sql", []))]
    storeExtensions := [("sql", ⟨none, none⟩)] }

/-- Workspace where the full browser pipeline for "orders" succeeds. -/
def wsBrow : Workspace :=
  { wsPlain with
    store_infos := [("default", ("sql", []))]
    storeExtensions := [("sql", ⟨none, none⟩)]
    browserExtensions := ["sql"] }

/-- Fallback cube value (used only to destructure `Except` results in
witness definitions). -/
def dummyCube : Cube :=
  { objId := 0, name := "", basename := "", nsName := none, store := .absent,
    locale := none, label := "", browser_options := [], browserName := none }

/-- The cube "orders" as first resolved by `wsPlain`. -/
def cOrders : Cube := ((wsPlain.cube (.str "orders") none none).2).toOption.getD dummyCube

/-- The live store `wsStores.get_store` constructs for "default". -/
def stDefault : Store := ⟨0, "default", "sql", [("url", "sqlite:x")], none⟩

/-- The live store `wsImp.get_store` constructs for "mystore". -/
def stMystore : Store := ⟨0, "mystore", "sql", [], none⟩

/-- `wsStores` with the default store already open (cached). -/
def wsCached : Workspace := { wsStores with stores := [("default", stDefault)] }

/-- Workspace with a store registered under the empty-string name. -/
def wsEmptyName : Workspace :=
  { wsPlain with
    store_infos := [("", ("sql", []))]
    storeExtensions := [("sql", ⟨none, none⟩)] }

/-- Fallback store value for destructuring `Except` results. -/
def dummyStore : Store := ⟨0, "", "", [], none⟩

/-- Fallback browser value for destructuring `Except` results. -/
def dummyBrowser : Browser := ⟨dummyCube, dummyStore, none, none, [], ""⟩

/-- The browser built by `wsBrow` for "orders" with requested locale "fr". -/
def bOrders : Browser :=
  ((wsBrow.browser (.ref "orders") (some "fr") none).2).toOption.getD dummyBrowser

theorem lookupA_insertA_self {κ α : Type} [DecidableEq κ] (l : List (κ × α)) (k : κ) (v : α) :
    lookupA (insertA l k v) k = some v := by
  induction l with
  | nil => simp [insertA, lookupA]
  | cons h t ih =>
    by_cases hk : h.1 = k
    · simp [insertA, hk, lookupA]
    · simp [insertA, hk, lookupA, ih]

theorem lookupA_mem {κ α : Type} [DecidableEq κ] {l : List (κ × α)} {k : κ} {v : α}
    (h : lookupA l k = some v) : (k, v) ∈ l := by
  induction l with
  | nil => simp [lookupA] at h
  | cons hd t ih =>
    obtain ⟨k1, v1⟩ := hd
    simp only [lookupA] at h
    by_cases hk : k1 = k
    · subst hk
      rw [if_pos rfl] at h
      injection h with h2
      subst h2
      exact List.mem_cons_self _ _
    · rw [if_neg hk] at h
      exact List.mem_cons_of_mem _ (ih h)

theorem find_cube_err {t : NSTree} {r : String} {e : Err}
    (h : t.find_cube r = .error e) : e = .noSuchCube := by
  unfold NSTree.find_cube at h
  dsimp only at h
  split at h
  · split at h <;> simp_all
  · split at h
    · simp_all
    · split at h
      · simp_all
      · split at h <;> simp_all

theorem provider_cube_err {p : Provider} {b : String} {l : Option String} {f : Nat} {e : Err}
    (h : p.cube b l f = .error e) : e = .noSuchCube := by
  unfold Provider.cube at h
  split at h <;> simp_all

theorem provider_cube_objId {p : Provider} {b : String} {l : Option String} {f : Nat} {c : Cube}
    (h : p.cube b l f = .ok c) : c.objId = f := by
  unfold Provider.cube at h
  split at h
  · simp_all
  · simp only [Except.ok.injEq] at h
    subst h
    rfl

theorem provider_cube_shift {p : Provider} {b : String} {l : Option String} {f : Nat} {c : Cube}
    (h : p.cube b l f = .ok c) (f2 : Nat) : p.cube b l f2 = .ok { c with objId := f2 } := by
  unfold Provider.cube at h ⊢
  split at h
  · simp_all
  · simp only [Except.ok.injEq] at h
    subst h
    rfl

theorem localized_objId (c : Cube) (tr : Option String) :
    (c.localized tr).objId = c.objId := by
  cases tr <;> rfl

theorem localized_name (c : Cube) (tr : Option String) :
    (c.localized tr).name = c.name := by
  cases tr <;> rfl

theorem localized_basename (c : Cube) (tr : Option String) :
    (c.localized tr).basename = c.basename := by
  cases tr <;> rfl

theorem localized_nsName (c : Cube) (tr : Option String) :
    (c.localized tr).nsName = c.nsName := by
  cases tr <;> rfl

theorem localized_store (c : Cube) (tr : Option String) :
    (c.localized tr).store = c.store := by
  cases tr <;> rfl

theorem provider_cube_err_shift {p : Provider} {b : String} {l : Option String}
    {f : Nat} {e : Err} (h : p.cube b l f = .error e) (f2 : Nat) :
    p.cube b l f2 = .error e := by
  unfold Provider.cube at h ⊢
  split at h <;> simp_all

theorem cubeMaterialize_cases (ws : Workspace) (r : String) (i : Identity) (l : Option String) :
    (ws.cubeMaterialize r i l = (ws, .error .noSuchCube)) ∨
    (∃ c, ws.cubeMaterialize r i l =
        ({ ws with
           _cubes := insertA ws._cubes (r, i, l) c
           counter := ws.counter + 1 }, .ok c) ∧
      c.objId = ws.counter ∧ CubeStamped ws.nstree r c) := by
  unfold Workspace.cubeMaterialize
  cases hf : ws.nstree.find_cube r with
  | error e =>
    left
    have he := find_cube_err hf
    subst he
    simp [hf]
  | ok kpb =>
    obtain ⟨k, p, b⟩ := kpb
    cases hp : p.cube b l ws.counter with
    | error e =>
      left
      have he := provider_cube_err hp
      subst he
      simp [hf, hp]
    | ok c0 =>
      right
      simp only [hf, hp]
      refine ⟨_, rfl, ?_, ?_⟩
      · cases htr : ws.nstree.translation_lookup k l with
        | nil => simpa using provider_cube_objId hp
        | cons tr rest => simpa [localized_objId] using provider_cube_objId hp
      · refine ⟨k, p, b, hf, ?_⟩
        cases htr : ws.nstree.translation_lookup k l with
        | nil => simp
        | cons tr rest =>
          simp [localized_name, localized_basename, localized_nsName, localized_store]

theorem cubeMaterialize_congr (ws ws2 : Workspace) (r : String) (i i2 : Identity)
    (l : Option String) (ht : ws2.nstree = ws.nstree) :
    (ws2.cubeMaterialize r i2 l).2 =
      ((ws.cubeMaterialize r i l).2).map (fun c => { c with objId := ws2.counter }) := by
  unfold Workspace.cubeMaterialize
  rw [ht]
  cases hf : ws.nstree.find_cube r with
  | error e => simp [hf, Except.map]
  | ok kpb =>
    obtain ⟨k, p, b⟩ := kpb
    cases hp : p.cube b l ws.counter with
    | error e =>
      have hp2 := provider_cube_err_shift hp ws2.counter
      simp [hf, hp, hp2, Except.map]
    | ok c0 =>
      have hp2 := provider_cube_shift hp ws2.counter
      simp only [hf, hp, hp2]
      cases htr : ws.nstree.translation_lookup k l with
      | nil => simp [Except.map]
      | cons tr rest =>
        cases hloc : objectLocalization tr "cubes" r <;>
          simp [Except.map, Cube.localized, hloc]

theorem cube_gate_denied (ws : Workspace) (r : String) (i : Identity) (l : Option String)
    (h : ws.authDenied i r = true) :
    ws.cube (.str r) i l = (ws, .error .notAuthorized) := by
  simp [Workspace.cube, h]

theorem cube_hit (ws : Workspace) (r : String) (i : Identity) (l : Option String) (c : Cube)
    (h : ws.authDenied i r = false) (hc : lookupA ws._cubes (r, i, l) = some c) :
    ws.cube (.str r) i l = (ws, .ok c) := by
  simp [Workspace.cube, h, hc]

theorem cube_miss (ws : Workspace) (r : String) (i : Identity) (l : Option String)
    (h : ws.authDenied i r = false) (hc : lookupA ws._cubes (r, i, l) = none) :
    ws.cube (.str r) i l = ws.cubeMaterialize r i l := by
  simp [Workspace.cube, h, hc]

/-- C1: with an Authorizer configured, `cube(ref, identity, locale)` calls it
with `identity` and `[ref]`; under the Authorizer contract that the result is
a subset of the given references, the call fails with NotAuthorized exactly
when `ref` is not in the returned authorized subset, and on that failure the
workspace (in particular the cube cache) is left untouched and no later
resolution step runs — the theorem holds for every cache content. -/
theorem cube_authorization (ws : Workspace) (r : String) (i : Identity) (l : Option String)
    (A : AuthFn) (hA : ws.authorizer = some A) (hsub : ∀ x ∈ A i [r], x = r) :
    (r ∉ A i [r] → ws.cube (.str r) i l = (ws, .error .notAuthorized)) ∧
    ((ws.cube (.str r) i l).2 = .error .notAuthorized → r ∉ A i [r]) := by
  have hgate : ws.authDenied i r = (A i [r]).isEmpty := by
    simp [Workspace.authDenied, hA]
  constructor
  · intro hnot
    have hempty : A i [r] = [] := by
      cases hl : A i [r] with
      | nil => rfl
      | cons x xs =>
        exfalso
        have hx : x = r := hsub x (by rw [hl]; exact List.mem_cons_self _ _)
        apply hnot
        rw [hl, hx]
        exact List.mem_cons_self _ _
    have hd : ws.authDenied i r = true := by rw [hgate, hempty]; rfl
    exact cube_gate_denied ws r i l hd
  · intro hres
    cases hd : ws.authDenied i r with
    | true =>
      have hempty : A i [r] = [] := by
        rw [hgate] at hd
        exact List.isEmpty_iff.mp hd
      rw [hempty]
      exact List.not_mem_nil r
    | false =>
      exfalso
      cases hc : lookupA ws._cubes (r, i, l) with
      | some c =>
        rw [cube_hit ws r i l c hd hc] at hres
        simp at hres
      | none =>
        rw [cube_miss ws r i l hd hc] at hres
        rcases cubeMaterialize_cases ws r i l with hcase | ⟨c, hcase, _, _⟩
        · rw [hcase] at hres
          simp at hres
        · rw [hcase] at hres
          simp at hres

theorem cube_authorization_witness :
    wsAuth.cube (.str "secret") none none = (wsAuth, .error .notAuthorized) :=
  (cube_authorization wsAuth "secret" none none authOrdersOnly rfl (by decide)).1 (by decide)

/-- C8: `flush_lookup_cache()` empties the cube cache entirely and changes
no other component of the workspace state: store registrations, live
stores, the namespace tree (providers and translations), the authorizer,
all option maps, the extension registries and the allocation counter are
unchanged. -/
theorem flush_lookup_cache_frame (ws : Workspace) :
    (ws.flush_lookup_cache)._cubes = [] ∧
    (ws.flush_lookup_cache).store_infos = ws.store_infos ∧
    (ws.flush_lookup_cache).stores = ws.stores ∧
    (ws.flush_lookup_cache).nstree = ws.nstree ∧
    (ws.flush_lookup_cache).authorizer = ws.authorizer ∧
    (ws.flush_lookup_cache).browser_options = ws.browser_options ∧
    (ws.flush_lookup_cache).namings = ws.namings ∧
    (ws.flush_lookup_cache).storeExtensions = ws.storeExtensions ∧
    (ws.flush_lookup_cache).providerExtensions = ws.providerExtensions ∧
    (ws.flush_lookup_cache).browserExtensions = ws.browserExtensions ∧
    (ws.flush_lookup_cache).modelFiles = ws.modelFiles ∧
    (ws.flush_lookup_cache).counter = ws.counter :=
  ⟨rfl, rfl, rfl, rfl, rfl, rfl, rfl, rfl, rfl, rfl, rfl, rfl⟩

/-- C9 counterexample: a non-string reference makes `cube` fail with the
built-in TypeError (source line 618 raises `TypeError`), which is a
different error than the taxonomy's ArgumentError — so the claim that the
failure is ArgumentError is false. -/
theorem cube_nonstring_not_argumenterror :
    (wsPlain.cube .nonStr none none).2 = .error .typeError ∧
    (wsPlain.cube .nonStr none none).2 ≠ .error .argumentError := by
  exact ⟨rfl, by decide⟩

/-- C9 (amended): for every non-string value passed as the reference,
`cube` fails immediately with the built-in TypeError — not ArgumentError —
and the workspace state is unchanged. -/
theorem cube_nonstring_typeerror (ws : Workspace) (i : Identity) (l : Option String) :
    ws.cube .nonStr i l = (ws, .error .typeError) := rfl

/-- C5: `cube_names(identity)` drops its `identity` argument — source line
587 calls `self.list_cubes()` with the default `None` identity — so with an
authorizer that approves cubes for "alice" but nothing for `None`,
`cube_names("alice")` returns the empty list while `list_cubes("alice")`
returns the "orders" cube, contradicting the claim that `cube_names`
returns the names of what `list_cubes` would return for the same
identity.  (The other parts of the claim hold: with an authorizer,
`list_cubes` returns exactly the approved descriptors in the authorizer's
order, and with none it returns everything.) -/
theorem cube_names_ignores_identity :
    wsAlice.cube_names (some "alice") = .ok [] ∧
    wsAlice.list_cubes (some "alice") = .ok [⟨"orders", "Orders"⟩] ∧
    wsAlice.list_cubes none = .ok [] := by
  exact ⟨by decide, by decide, by decide⟩

/-- C2: on a workspace whose cache only holds cubes allocated before the
current counter (true of every cache populated by `cube` itself), a second
`cube()` call with identical arguments returns the identical cached object
and leaves the state unchanged, while after `flush_lookup_cache()` the next
call with the same arguments materializes a fresh object (a different
allocation) rather than the previously cached one. -/
theorem cube_cached_until_flush (ws : Workspace) (r : String) (i : Identity)
    (l : Option String) (c : Cube) (hwf : ws.WF)
    (h1 : (ws.cube (.str r) i l).2 = .ok c) :
    ((ws.cube (.str r) i l).1.cube (.str r) i l = ((ws.cube (.str r) i l).1, .ok c)) ∧
    (∀ c2 : Cube,
      (((ws.cube (.str r) i l).1.flush_lookup_cache).cube (.str r) i l).2 = .ok c2 →
      c2.objId ≠ c.objId) := by
  have hd0 : ws.authDenied i r = false := by
    cases hdx : ws.authDenied i r with
    | true =>
      rw [cube_gate_denied ws r i l hdx] at h1
      simp at h1
    | false => rfl
  obtain ⟨f1, f2, f3, f4⟩ :
      (ws.cube (.str r) i l).1.authorizer = ws.authorizer ∧
      lookupA (ws.cube (.str r) i l).1._cubes (r, i, l) = some c ∧
      (ws.cube (.str r) i l).1.nstree = ws.nstree ∧
      c.objId < (ws.cube (.str r) i l).1.counter := by
    cases hc : lookupA ws._cubes (r, i, l) with
    | some c0 =>
      have heq := cube_hit ws r i l c0 hd0 hc
      rw [heq] at h1 ⊢
      dsimp only at h1 ⊢
      injection h1 with h1
      subst h1
      exact ⟨rfl, hc, rfl, hwf ((r, i, l), c0) (lookupA_mem hc)⟩
    | none =>
      have heq := cube_miss ws r i l hd0 hc
      rw [heq] at h1 ⊢
      rcases cubeMaterialize_cases ws r i l with hcase | ⟨c3, hcase, hobj, _⟩
      · rw [hcase] at h1
        simp at h1
      · rw [hcase] at h1 ⊢
        dsimp only at h1 ⊢
        injection h1 with h1
        subst h1
        refine ⟨rfl, lookupA_insertA_self ws._cubes (r, i, l) c3, rfl, ?_⟩
        rw [hobj]
        exact Nat.lt_succ_self _
  have hd1 : (ws.cube (.str r) i l).1.authDenied i r = false := by
    unfold Workspace.authDenied
    rw [f1]
    unfold Workspace.authDenied at hd0
    exact hd0
  constructor
  · exact cube_hit _ r i l c hd1 f2
  · intro c2 hres
    have hdf : ((ws.cube (.str r) i l).1.flush_lookup_cache).authDenied i r = false := hd1
    have hcf :
        lookupA ((ws.cube (.str r) i l).1.flush_lookup_cache)._cubes (r, i, l) = none := rfl
    rw [cube_miss _ r i l hdf hcf] at hres
    have ht : ((ws.cube (.str r) i l).1.flush_lookup_cache).nstree = ws.nstree := f3
    rw [cubeMaterialize_congr ws _ r i i l ht] at hres
    rcases cubeMaterialize_cases ws r i l with hcase | ⟨c3, hcase, hobj, _⟩
    · have h2 : (ws.cubeMaterialize r i l).2 = .error .noSuchCube := by rw [hcase]
      rw [h2] at hres
      simp [Except.map] at hres
    · have h2 : (ws.cubeMaterialize r i l).2 = .ok c3 := by rw [hcase]
      rw [h2] at hres
      simp only [Except.map] at hres
      injection hres with hres
      subst hres
      intro he
      have he2 : (ws.cube (.str r) i l).1.counter = c.objId := he
      omega

theorem cube_cached_until_flush_witness :
    (wsPlain.cube (.str "orders") none none).1.cube (.str "orders") none none =
      ((wsPlain.cube (.str "orders") none none).1, .ok cOrders) :=
  (cube_cached_until_flush wsPlain "orders" none none cOrders
    (fun e he => absurd he (List.not_mem_nil e)) (by decide)).1

/-- C3: every Cube returned by `cube(ref, identity, locale)` (on a
workspace whose cache entries are themselves correctly stamped, as `cube`
alone produces) carries its owning namespace, the full reference as its
name, the provider-local basename and the provider's store name; that
store field is a string or absent, never a live handle; and `browser()`
reacts to a live-handle store field with the programming-error
AssertionError rather than a user-facing error. -/
theorem cube_stamped_and_store_shape (ws : Workspace) (r : String) (i : Identity)
    (l : Option String) (c : Cube) (hinv : ws.CacheStamped)
    (h : (ws.cube (.str r) i l).2 = .ok c) :
    CubeStamped ws.nstree r c ∧
    ((∃ s, c.store = .named s) ∨ c.store = .absent) ∧
    (∀ c2 : Cube, ∀ n : Nat, c2.store = .liveHandle n →
      ∀ loc : Option String, ∀ i2 : Identity,
        (ws.browser (.obj c2) loc i2).2 = .error .assertionError) := by
  have hstamp : CubeStamped ws.nstree r c := by
    cases hd : ws.authDenied i r with
    | true =>
      rw [cube_gate_denied ws r i l hd] at h
      simp at h
    | false =>
      cases hc : lookupA ws._cubes (r, i, l) with
      | some c0 =>
        rw [cube_hit ws r i l c0 hd hc] at h
        dsimp only at h
        injection h with h
        subst h
        exact hinv ((r, i, l), c0) (lookupA_mem hc)
      | none =>
        rw [cube_miss ws r i l hd hc] at h
        rcases cubeMaterialize_cases ws r i l with hcase | ⟨c3, hcase, _, hst⟩
        · rw [hcase] at h
          simp at h
        · rw [hcase] at h
          dsimp only at h
          injection h with h
          subst h
          exact hst
  refine ⟨hstamp, ?_, ?_⟩
  · obtain ⟨k, p, b, hf, hn, hb, hns, hs⟩ := hstamp
    cases hps : p.store with
    | some s =>
      left
      exact ⟨s, by rw [hs, hps]; rfl⟩
    | none =>
      right
      rw [hs, hps]
      rfl
  · intro c2 n hstore loc i2
    simp [Workspace.browser, hstore]

theorem cube_stamped_and_store_shape_witness :
    CubeStamped wsPlain.nstree "orders" cOrders ∧
    ((∃ s, cOrders.store = .named s) ∨ cOrders.store = .absent) :=
  ⟨(cube_stamped_and_store_shape wsPlain "orders" none none cOrders
      (fun e he => absurd he (List.not_mem_nil e)) (by decide)).1,
   (cube_stamped_and_store_shape wsPlain "orders" none none cOrders
      (fun e he => absurd he (List.not_mem_nil e)) (by decide)).2.1⟩

/-- C4 counterexample: registering a store whose type does not resolve to
a known extension fails, yet the (type, config) pair HAS been recorded in
`store_infos` (the source records at line 426 and only then resolves the
extension at line 438), so "a failed registration leaves store_infos
unchanged" is false. -/
theorem register_store_records_despite_failure :
    ((wsPlain.register_store "s" "nosuch" true []).1).store_infos =
      [("s", ("nosuch", []))] ∧
    (wsPlain.register_store "s" "nosuch" true []).2 =
      .error (.configurationError "unknown store extension nosuch") ∧
    wsPlain.store_infos = [] := by
  exact ⟨by decide, by decide, by decide⟩

/-- C4 (amended): `register_store` fails when the name is already
registered and `_register_store_dict` fails when the config has neither a
"type" nor a "backend" key, in both cases leaving the workspace (hence
`store_infos`) unchanged; but the (type, config) pair is recorded BEFORE
the extension lookup, so a failure due to an unresolvable type leaves the
pair recorded in `store_infos`. -/
theorem register_store_failure_modes
    (wsa wsb wsc : Workspace) (n t : String) (cfg info : Config) (inc : Bool)
    (hdup : (lookupA wsa.store_infos n).isSome = true)
    (hnt : lookupA info "type" = none)
    (hnb : lookupA info "backend" = none)
    (hfresh : lookupA wsc.store_infos n = none)
    (hext : lookupA wsc.storeExtensions t = none) :
    (wsa.register_store n t inc cfg =
      (wsa, .error (.configurationError ("Store " ++ n ++ " already registered")))) ∧
    (wsb._register_store_dict n info =
      (wsb, .error (.configurationError ("Store " ++ n ++ " has no type specified")))) ∧
    (wsc.register_store n t inc cfg =
      ({ wsc with store_infos := insertA wsc.store_infos n (t, cfgAfterModelPop inc cfg) },
        .error (.configurationError ("unknown store extension " ++ t)))) := by
  refine ⟨?_, ?_, ?_⟩
  · simp [Workspace.register_store, hdup]
  · simp [Workspace._register_store_dict, hnt, hnb]
  · have hf : (lookupA wsc.store_infos n).isSome = false := by rw [hfresh]; rfl
    simp [Workspace.register_store, hf, hext]

theorem register_store_failure_modes_witness :
    wsPlain.register_store "default" "nosuch" true [] =
      ({ wsPlain with
          store_infos :=
            insertA wsPlain.store_infos "default" ("nosuch", cfgAfterModelPop true []) },
        .error (.configurationError "unknown store extension nosuch")) :=
  (register_store_failure_modes wsStores wsPlain wsPlain "default" "nosuch" []
    [("foo", "bar")] true (by decide) (by decide) (by decide) (by decide) (by decide)).2.2

/-- C6 counterexample: the claim quantifies over every store name, but an
empty-string name is falsy (`name = name or "default"`), so with a
StoreInfo registered under the name "", `get_store("")` does not construct
that store — it looks up "default" and fails with "Unknown store". -/
theorem get_store_empty_name_cex :
    (wsEmptyName.get_store (some "")).2 =
      .error (.configurationError "Unknown store default") ∧
    lookupA wsEmptyName.store_infos "" = some ("sql", []) ∧
    lookupA wsEmptyName.storeExtensions "sql" = some ⟨none, none⟩ := by
  exact ⟨by decide, by decide, by decide⟩

/-- C6 (amended): for every NON-EMPTY store name, `get_store(name)`
returns the cached live store when present; fails with "Unknown store"
when no StoreInfo is registered; otherwise constructs the store from the
registered type and configuration, caches it and returns it; a second
call after a successful one returns the identical instance with no
further state change; and an absent — or empty, both being falsy — name
means "default". -/
theorem get_store_behavior
    (wsa wsb wsc : Workspace) (n t : String) (st : Store) (cfg : Config)
    (ext : StoreExtInfo)
    (hne : n ≠ "")
    (hcache : lookupA wsa.stores n = some st)
    (hbmiss : lookupA wsb.stores n = none)
    (hbinfo : lookupA wsb.store_infos n = none)
    (hcmiss : lookupA wsc.stores n = none)
    (hcinfo : lookupA wsc.store_infos n = some (t, cfg))
    (hcext : lookupA wsc.storeExtensions t = some ext) :
    (wsa.get_store (some n) = (wsa, .ok st)) ∧
    (wsb.get_store (some n) =
      (wsb, .error (.configurationError ("Unknown store " ++ n)))) ∧
    (wsc.get_store (some n) =
      ({ wsc with
          stores := insertA wsc.stores n ⟨wsc.counter, n, t, cfg, ext.default_browser_name⟩
          counter := wsc.counter + 1 },
        .ok ⟨wsc.counter, n, t, cfg, ext.default_browser_name⟩)) ∧
    (∀ ws : Workspace, ∀ st2 : Store, (ws.get_store (some n)).2 = .ok st2 →
      (ws.get_store (some n)).1.get_store (some n) = ((ws.get_store (some n)).1, .ok st2)) ∧
    (∀ ws : Workspace, ws.get_store none = ws.get_store (some "default")) ∧
    (∀ ws : Workspace, ws.get_store (some "") = ws.get_store (some "default")) := by
  refine ⟨?_, ?_, ?_, ?_, ?_, ?_⟩
  · simp [Workspace.get_store, if_neg hne, hcache]
  · simp [Workspace.get_store, if_neg hne, hbmiss, hbinfo]
  · simp [Workspace.get_store, if_neg hne, hcmiss, hcinfo, hcext]
  · intro ws st2 h
    cases hc1 : lookupA ws.stores n with
    | some st0 =>
      have heq : ws.get_store (some n) = (ws, .ok st0) := by
        simp [Workspace.get_store, if_neg hne, hc1]
      rw [heq] at h ⊢
      dsimp only at h ⊢
      injection h with h
      subst h
      exact heq
    | none =>
      cases hc2 : lookupA ws.store_infos n with
      | none =>
        have heq : ws.get_store (some n) =
            (ws, .error (.configurationError ("Unknown store " ++ n))) := by
          simp [Workspace.get_store, if_neg hne, hc1, hc2]
        rw [heq] at h
        simp at h
      | some tc =>
        obtain ⟨t0, cfg0⟩ := tc
        cases hc3 : lookupA ws.storeExtensions t0 with
        | none =>
          have heq : ws.get_store (some n) =
              (ws, .error (.configurationError ("unknown store extension " ++ t0))) := by
            simp [Workspace.get_store, if_neg hne, hc1, hc2, hc3]
          rw [heq] at h
          simp at h
        | some e0 =>
          have heq : ws.get_store (some n) =
              ({ ws with
                  stores :=
                    insertA ws.stores n ⟨ws.counter, n, t0, cfg0, e0.default_browser_name⟩
                  counter := ws.counter + 1 },
                .ok ⟨ws.counter, n, t0, cfg0, e0.default_browser_name⟩) := by
            simp [Workspace.get_store, if_neg hne, hc1, hc2, hc3]
          rw [heq] at h ⊢
          dsimp only at h ⊢
          injection h with h
          subst h
          have hl :
              lookupA ({ ws with
                stores :=
                  insertA ws.stores n ⟨ws.counter, n, t0, cfg0, e0.default_browser_name⟩
                counter := ws.counter + 1 } : Workspace).stores n =
              some ⟨ws.counter, n, t0, cfg0, e0.default_browser_name⟩ :=
            lookupA_insertA_self ws.stores n _
          simp [Workspace.get_store, if_neg hne, hl]
  · intro ws
    rfl
  · intro ws
    rfl

theorem get_store_behavior_witness :
    wsCached.get_store (some "default") = (wsCached, .ok stDefault) :=
  (get_store_behavior wsCached wsPlain wsStores "default" "sql" stDefault
    [("url", "sqlite:x")] ⟨none, none⟩ (by decide) (by decide) (by decide) (by decide)
    (by decide) (by decide) (by decide)).1

theorem getNamespace_create (t : NSTree) (n : String) :
    t.getNamespace n true = .ok (t.ensureChild n, some n) := by
  unfold NSTree.getNamespace NSTree.ensureChild
  cases h : lookupA t.children n <;> simp [h]

/-- C7 counterexample: the claim says an explicit namespace argument
always wins, but an empty-string namespace argument is falsy in Python
(`if namespace:`), so `import_model(..., store="mystore", namespace="")`
registers the provider in the store-named namespace "mystore" and no
namespace named "" is created. -/
theorem import_model_empty_namespace_cex :
    (wsImp.import_model (.dict ⟨none, none, []⟩) (.obj ⟨[], none, false⟩)
        (some "mystore") none (some "")).2 = .ok () ∧
    ((wsImp.import_model (.dict ⟨none, none, []⟩) (.obj ⟨[], none, false⟩)
        (some "mystore") none (some "")).1).nstree =
      { root := { providers := [provOrders], translations := [] }
        children :=
          [("mystore", { providers := [{ cubes := [], store := some "mystore", requires_store := false }], translations := [] })] } ∧
    lookupA ((wsImp.import_model (.dict ⟨none, none, []⟩) (.obj ⟨[], none, false⟩)
        (some "mystore") none (some "")).1).nstree.children "" = none := by
  exact ⟨by decide, by decide, by decide⟩

/-- C7 (amended): `import_model` registers the resolved provider into the
namespace chosen by this rule: a NON-EMPTY explicit namespace argument
always wins — even when a store is supplied, whose binding still happens
but whose name plays no part in the namespace choice — with "default"
meaning the root namespace and an empty string being falsy and treated as
not provided; otherwise, if the effective store name is exactly
"default", the root namespace is targeted; otherwise a namespace named
after the store is targeted, created if absent.  Cases: (a) explicit
"default" beats store `t`; (b) explicit `s` beats store `t` (the provider
lands under `s`, no namespace named `t` is involved); (c) no namespace,
store "default" targets root; (d) no namespace, store `t` targets child
`t`; (e)/(f) explicit "default"/`s` with no store at all. -/
theorem import_model_namespace_rule
    (wsa wsb wsc wsd wse wsf : Workspace) (p : Provider) (m : Metadata) (s t : String)
    (sta stb stc std : Store)
    (hpr : p.requires_store = false) (hms : m.store = none)
    (hs1 : s ≠ "") (hs2 : s ≠ "default")
    (ht1 : t ≠ "") (ht2 : t ≠ "default")
    (hga : (wsa.get_store (some t)).2 = .ok sta)
    (hgb : (wsb.get_store (some t)).2 = .ok stb)
    (hgc : (wsc.get_store (some "default")).2 = .ok stc)
    (hgd : (wsd.get_store (some t)).2 = .ok std) :
    (wsa.import_model (.dict m) (.obj p) (some t) none (some "default") =
      ({ (wsa.get_store (some t)).1 with
          nstree := (wsa.get_store (some t)).1.nstree.addProviderAt none
            { p with store := some sta.name } }, .ok ())) ∧
    (wsb.import_model (.dict m) (.obj p) (some t) none (some s) =
      ({ (wsb.get_store (some t)).1 with
          nstree := ((wsb.get_store (some t)).1.nstree.ensureChild s).addProviderAt (some s)
            { p with store := some stb.name } }, .ok ())) ∧
    (wsc.import_model (.dict m) (.obj p) (some "default") none none =
      ({ (wsc.get_store (some "default")).1 with
          nstree := (wsc.get_store (some "default")).1.nstree.addProviderAt none
            { p with store := some stc.name } }, .ok ())) ∧
    (wsd.import_model (.dict m) (.obj p) (some t) none none =
      ({ (wsd.get_store (some t)).1 with
          nstree := ((wsd.get_store (some t)).1.nstree.ensureChild t).addProviderAt (some t)
            { p with store := some std.name } }, .ok ())) ∧
    (wse.import_model (.dict m) (.obj p) none none (some "default") =
      ({ wse with nstree := wse.nstree.addProviderAt none p }, .ok ())) ∧
    (wsf.import_model (.dict m) (.obj p) none none (some s) =
      ({ wsf with nstree := (wsf.nstree.ensureChild s).addProviderAt (some s) p }, .ok ())) := by
  have htn : truthy (none : Option String) = false := rfl
  have htd : truthy (some "default") = true := rfl
  have hts : truthy (some s) = true := by simp [truthy, hs1]
  have htt : truthy (some t) = true := by simp [truthy, ht1]
  refine ⟨?_, ?_, ?_, ?_, ?_, ?_⟩
  · cases hg : wsa.get_store (some t) with
    | mk wsg res =>
      rw [hg] at hga
      dsimp only at hga
      subst hga
      simp [Workspace.import_model, htt, htd, hg]
  · cases hg : wsb.get_store (some t) with
    | mk wsg res =>
      rw [hg] at hgb
      dsimp only at hgb
      subst hgb
      simp [Workspace.import_model, htt, hts, hs2, hg, getNamespace_create]
  · cases hg : wsc.get_store (some "default") with
    | mk wsg res =>
      rw [hg] at hgc
      dsimp only at hgc
      subst hgc
      simp [Workspace.import_model, htn, htd, hg]
  · cases hg : wsd.get_store (some t) with
    | mk wsg res =>
      rw [hg] at hgd
      dsimp only at hgd
      subst hgd
      simp [Workspace.import_model, htn, htt, hg, ht2, getNamespace_create]
  · simp [Workspace.import_model, hms, hpr, htn, htd]
  · simp [Workspace.import_model, hms, hpr, htn, hts, hs2, getNamespace_create]

theorem import_model_namespace_rule_witness :
    wsImp.import_model (.dict ⟨none, none, []⟩) (.obj ⟨[], none, false⟩)
        (some "mystore") none (some "myns") =
      ({ (wsImp.get_store (some "mystore")).1 with
          nstree :=
            ((wsImp.get_store (some "mystore")).1.nstree.ensureChild "myns").addProviderAt
              (some "myns")
              { (⟨[], none, false⟩ : Provider) with store := some stMystore.name } },
        .ok ()) :=
  (import_model_namespace_rule wsImp wsImp wsStores wsImp wsPlain wsPlain
    ⟨[], none, false⟩ ⟨none, none, []⟩ "myns" "mystore" stMystore stMystore stDefault
    stMystore rfl rfl (by decide) (by decide) (by decide) (by decide) (by decide)
    (by decide) (by decide) (by decide)).2.1

/-- C10 counterexample: the claim says the requested locale `l` (falling
back to the cube's locale only when `l` is absent) is passed to the
browser, but an empty-string locale is falsy (`locale = locale or
cube.locale`), so `browser("orders", locale="")` builds a browser whose
locale is the resolved cube's locale (`None`), not `""`. -/
theorem browser_empty_locale_cex :
    ((wsBrow.browser (.ref "orders") (some "") none).2).map (fun b => b.locale) =
      .ok none ∧
    ((wsBrow.browser (.ref "orders") (some "") none).2).map (fun b => b.locale) ≠
      .ok (some "") := by
  exact ⟨by decide, by decide⟩

/-- C10 (amended): `browser(r, locale=l, identity=i)` resolves the cube by
calling `cube(r, identity=i)` with NO locale — the requested locale plays
no part in resolution or localization — and the locale handed to the
constructed browser is `l` when `l` is truthy (present and non-empty),
else the resolved cube's own locale. -/
theorem browser_resolves_without_locale (ws : Workspace) (r : String) (l : Option String)
    (i : Identity) (c : Cube) (b : Browser)
    (h1 : (ws.cube (.str r) i none).2 = .ok c)
    (h2 : (ws.browser (.ref r) l i).2 = .ok b) :
    b.cube = c ∧ b.locale = (if truthy l then l else c.locale) := by
  have hs : ws.cube (.str r) i none = ((ws.cube (.str r) i none).1, .ok c) := by
    cases hx : ws.cube (.str r) i none with
    | mk a bx =>
      rw [hx] at h1
      dsimp only at h1
      rw [h1]
  unfold Workspace.browser at h2
  dsimp only at h2
  rw [hs] at h2
  dsimp only at h2
  repeat' split at h2
  all_goals dsimp only at h2
  all_goals first
    | exact Except.noConfusion h2
    | (injection h2 with h2; subst h2; refine ⟨rfl, ?_⟩; simp [*])

theorem browser_resolves_without_locale_witness :
    bOrders.cube = cOrders ∧
    bOrders.locale = (if truthy (some "fr") then some "fr" else cOrders.locale) :=
  browser_resolves_without_locale wsBrow "orders" (some "fr") none cOrders bOrders
    (by decide) (by decide)

end Cubes
